import Mathlib

/-
Verification of the chess position engine (src/chess/piece.py and
src/chess/board.py) against its natural-language specification.
The Python classes are shallowly embedded: a piece is a record carrying its
kind tag (the source uses one subclass per kind), positions are pairs of
integers, fallible methods return Except values, and the Python builtin
exceptions that the source can raise are modelled as error constructors.
-/

namespace Chess

/-- Modelled from the spec: the color constants COLOR_WHITE and COLOR_BLACK.
The module const.py is imported by the sources but absent from them; the spec
fixes exactly two colors, White and Black. -/
inductive Color where
  | white
  | black
deriving DecidableEq

/-- The opposing color, as computed inline in Board.is_check
(COLOR_BLACK if color == COLOR_WHITE else COLOR_WHITE). -/
def Color.opposite : Color → Color
  | .white => .black
  | .black => .white

/-- Modelled from the spec: BOARD_SIZE from the absent module const.py; the
spec fixes an 8 by 8 board. -/
def BOARD_SIZE : Nat := 8

/-- Errors a call can raise. InvalidMoveException is modelled from the spec
(module exception.py is absent from the sources; the spec calls it
InvalidMoveError). The other constructors stand for the Python builtin
exceptions TypeError, AttributeError and NotImplementedError raised by the
code under src. -/
inductive ChessErr where
  | invalidMoveException
  | typeError
  | attributeError
  | notImplementedError
deriving DecidableEq

/-- The six piece subclasses of piece.py, as a closed tag. -/
inductive PieceKind where
  | pawn
  | knight
  | bishop
  | rook
  | queen
  | king
deriving DecidableEq

/-- A piece: kind and color are immutable; position is the stored square
(row, column); has_moved models HasMovedMixin, whose getter defaults to
False when the attribute was never set. -/
structure Piece where
  kind : PieceKind
  color : Color
  position : Int × Int
  has_moved : Bool
deriving DecidableEq

/-- Pawn.can_move: dx = column delta, dy = forward-relative row delta
(own row minus target row for White, reversed for Black); legal when
(dy == 1 and dx == 0) or (dy == 2 and dx == 0 and not has_moved). -/
def Pawn.can_move (p : Piece) (target_position : Int × Int) : Bool :=
  let dx : Int := p.position.2 - target_position.2
  let dy : Int :=
    if p.color = Color.white
    then p.position.1 - target_position.1
    else target_position.1 - p.position.1
  decide ((dy = 1 ∧ dx = 0) ∨ (dy = 2 ∧ dx = 0 ∧ p.has_moved = false))

/-- King.can_move: dx, dy are absolute deltas; legal when
dx == 1 and dy in (0, 1), or dy == 1 and dx in (0, 1). -/
def King.can_move (p : Piece) (target_position : Int × Int) : Bool :=
  let dx : Nat := (p.position.2 - target_position.2).natAbs
  let dy : Nat := (p.position.1 - target_position.1).natAbs
  decide ((dx = 1 ∧ (dy = 0 ∨ dy = 1)) ∨ (dy = 1 ∧ (dx = 0 ∨ dx = 1)))

/-- Queen.can_move: the chained Python comparisons
dx == dy != 0, dx == 0 != dy, dx != 0 == dy unfold conjunctively. -/
def Queen.can_move (p : Piece) (target_position : Int × Int) : Bool :=
  let dx : Nat := (p.position.2 - target_position.2).natAbs
  let dy : Nat := (p.position.1 - target_position.1).natAbs
  decide ((dx = dy ∧ dy ≠ 0) ∨ (dx = 0 ∧ 0 ≠ dy) ∨ (dx ≠ 0 ∧ 0 = dy))

/-- Rook.can_move: chained comparisons dx == 0 != dy, dx != 0 == dy. -/
def Rook.can_move (p : Piece) (target_position : Int × Int) : Bool :=
  let dx : Nat := (p.position.2 - target_position.2).natAbs
  let dy : Nat := (p.position.1 - target_position.1).natAbs
  decide ((dx = 0 ∧ 0 ≠ dy) ∨ (dx ≠ 0 ∧ 0 = dy))

/-- Knight.can_move: legal exactly when dx == 1 and dy == 2, where dx is the
absolute column delta and dy the absolute row delta. The source has no clause
for dx = 2, dy = 1. -/
def Knight.can_move (p : Piece) (target_position : Int × Int) : Bool :=
  let dx : Nat := (p.position.2 - target_position.2).natAbs
  let dy : Nat := (p.position.1 - target_position.1).natAbs
  decide (dx = 1 ∧ dy = 2)

/-- Bishop.can_move: chained comparison dx == dy != 0. -/
def Bishop.can_move (p : Piece) (target_position : Int × Int) : Bool :=
  let dx : Nat := (p.position.2 - target_position.2).natAbs
  let dy : Nat := (p.position.1 - target_position.1).natAbs
  decide (dx = dy ∧ dy ≠ 0)

/-- Dynamic dispatch of the abstract method Piece.can_move over the six
subclasses. -/
def Piece.can_move (p : Piece) (target_position : Int × Int) : Bool :=
  match p.kind with
  | .pawn => Pawn.can_move p target_position
  | .king => King.can_move p target_position
  | .queen => Queen.can_move p target_position
  | .rook => Rook.can_move p target_position
  | .knight => Knight.can_move p target_position
  | .bishop => Bishop.can_move p target_position

/-- The squares visited by the double loop
for row in range(board_size): for col in range(board_size), in order. -/
def board_squares (board_size : Nat) : List (Int × Int) :=
  (List.range board_size).flatMap fun row =>
    (List.range board_size).map fun col => ((row : Int), (col : Int))

/-- Piece.get_possible_positions: collects every board square that can_move
accepts, in row-major order, and returns None instead of an empty list. -/
def Piece.get_possible_positions (p : Piece) (board_size : Nat) :
    Option (List (Int × Int)) :=
  let positions := (board_squares board_size).filter fun position =>
    p.can_move position
  if positions.length > 0 then some positions else none

/-- Piece.move: when can_move accepts the target the stored position is
updated, and the overriding move of Pawn, King and Rook then sets has_moved
(the source guards the assignment with if not self.has_moved, but the flag is
true afterwards either way); otherwise InvalidMoveException is raised and, the
embedding being pure, the piece value is untouched. -/
def Piece.move (p : Piece) (target_position : Int × Int) :
    Except ChessErr Piece :=
  if p.can_move target_position then
    let moved : Piece :=
      { kind := p.kind, color := p.color, position := target_position,
        has_moved := p.has_moved }
    match p.kind with
    | .pawn | .king | .rook =>
        Except.ok { kind := moved.kind, color := moved.color,
                    position := moved.position, has_moved := true }
    | _ => Except.ok moved
  else
    Except.error ChessErr.invalidMoveException

/-- The board: a grid of optional pieces, row-major, as board.py stores it. -/
structure Board where
  state : List (List (Option Piece))
deriving DecidableEq

/-- Board.update is a stub in the source: its body is a bare
raise NotImplementedError, for every pair of positions. -/
def Board.update (_b : Board) (_piece_position _target_position : Int × Int) :
    Except ChessErr Board :=
  Except.error ChessErr.notImplementedError

/-- Board.get_pieces as written raises TypeError on every call: the predicate
lambda is the sole argument of the builtin filter (the flattened cell list is
passed to list() as a spurious second argument), and CPython raises
TypeError (filter expected 2 arguments, got 1) before touching the board. -/
def Board.get_pieces (_b : Board) (_color : Color) :
    Except ChessErr (List Piece) :=
  Except.error ChessErr.typeError

/-- Board.get_possible_moves: first calls get_pieces, which always raises
TypeError. Were a piece list ever produced, the comprehension guard reads the
attribute get_possible_moves, which no Piece defines (the method is named
get_possible_positions), so any nonempty list would raise AttributeError. -/
def Board.get_possible_moves (b : Board) (color : Color) :
    Except ChessErr (List (Option (List (Int × Int)))) := do
  let pieces ← b.get_pieces color
  match pieces with
  | [] => pure []
  | _ :: _ => Except.error ChessErr.attributeError

/-- Board.get_state: reads getattr(cell, "color") without a default, so an
empty square raises AttributeError; on an occupied square it returns False
when the occupant has the given color and True otherwise. Indices are
restricted to in-range non-negative squares, as in the claims. -/
def Board.get_state (b : Board) (color : Color) (position : Nat × Nat) :
    Except ChessErr Bool :=
  match (b.state.getD position.1 []).getD position.2 none with
  | none => Except.error ChessErr.attributeError
  | some piece =>
      Except.ok (if piece.color = color then false else true)

/-- Board.get_king_position: the first cell, scanning rows then columns, that
holds a King of the given color; None when there is none. -/
def Board.get_king_position (b : Board) (color : Color) :
    Option (Int × Int) :=
  (b.state.flatMap fun row => row).findSome? fun cell =>
    match cell with
    | some piece =>
        if piece.kind = PieceKind.king ∧ piece.color = color
        then some piece.position else none
    | none => none

/-- Python equality between the optional king tuple and one entry of the
enemy-moves list (each entry is a list of positions or None): a tuple never
equals a list, and None equals only None. -/
def py_tuple_eq_entry (k : Option (Int × Int))
    (entry : Option (List (Int × Int))) : Bool :=
  match k, entry with
  | none, none => true
  | _, _ => false

/-- Board.is_check: computes the enemy per-piece move lists (which always
raises TypeError through get_pieces) and then tests membership of the king
tuple in that list of lists with the Python in operator. -/
def Board.is_check (b : Board) (color : Color) : Except ChessErr Bool := do
  let enemy_moves ← b.get_possible_moves color.opposite
  let king_position := b.get_king_position color
  pure (enemy_moves.any fun entry => py_tuple_eq_entry king_position entry)

/-- Board.is_checkmate: is_check and, short-circuiting, emptiness of the
per-piece move list of the same color. -/
def Board.is_checkmate (b : Board) (color : Color) : Except ChessErr Bool := do
  let c ← b.is_check color
  if c then do
    let moves ← b.get_possible_moves color
    pure (decide (moves.length = 0))
  else
    pure false

/-- A white King alone at (0, 0). -/
def white_king : Piece :=
  { kind := PieceKind.king, color := Color.white, position := (0, 0),
    has_moved := false }

/-- A black Queen at (0, 7). -/
def black_queen : Piece :=
  { kind := PieceKind.queen, color := Color.black, position := (0, 7),
    has_moved := false }

/-- A rank with no pieces. -/
def empty_row : List (Option Piece) := List.replicate 8 none

/-- Scenario B of the spec: only a white King at (0, 0) and a black Queen at
(0, 7) on the board. -/
def scenario_b : Board :=
  { state :=
      [some white_king, none, none, none, none, none, none, some black_queen]
        :: List.replicate 7 empty_row }

/-- A Knight at (0, 0). -/
def knight_00 : Piece :=
  { kind := PieceKind.knight, color := Color.black, position := (0, 0),
    has_moved := false }

/-- A white Pawn at (6, 0), as in the standard starting arrangement. -/
def white_pawn_60 : Piece :=
  { kind := PieceKind.pawn, color := Color.white, position := (6, 0),
    has_moved := false }

/-- A white Pawn on row 0: its forward squares lie off the board. -/
def white_pawn_00 : Piece :=
  { kind := PieceKind.pawn, color := Color.white, position := (0, 0),
    has_moved := false }

/-- C1: the claim says is_check returns true exactly when the enemy
pseudo-legal targets cover the king square, and in particular true on
Scenario B; the code instead raises TypeError there, because get_pieces
passes the filter builtin only its predicate. -/
theorem is_check_raises_type_error :
    scenario_b.is_check Color.white = Except.error ChessErr.typeError := rfl

/-- C2: the claim says is_checkmate returns check-and-no-legal-move; the code
raises TypeError on Scenario B (propagated from get_pieces through is_check),
and the source has no legality filtering at all. -/
theorem is_checkmate_raises_type_error :
    scenario_b.is_checkmate Color.white = Except.error ChessErr.typeError :=
  rfl

/-- C3: a Knight at (0, 0) reaches only (2, 1); the square (1, 2) claimed by
the spec is rejected because Knight.can_move demands column delta 1 and row
delta 2 only. -/
theorem knight_00_misses_symmetric_target :
    knight_00.get_possible_positions 8 = some [((2 : Int), (1 : Int))] ∧
      knight_00.can_move (1, 2) = false := by
  constructor
  · decide
  · decide

/-- C4: Board.update raises NotImplementedError for every board and every
pair of positions; the claim expects InvalidMoveError on an empty source
square. The board value is untouched (the call produces no board). -/
theorem update_raises_not_implemented :
    ∀ (b : Board) (s t : Int × Int),
      b.update s t = Except.error ChessErr.notImplementedError :=
  fun _ _ _ => rfl

/-- C6: Board.get_pieces raises TypeError on every board and color instead of
returning the pieces of the given color. -/
theorem get_pieces_raises_type_error :
    ∀ (b : Board) (c : Color),
      b.get_pieces c = Except.error ChessErr.typeError :=
  fun _ _ => rfl

/-- Characterization of Piece.move: success updates the position and, for the
three HasMovedMixin kinds, the flag; failure raises InvalidMoveException. -/
theorem move_eq (p : Piece) (t : Int × Int) :
    p.move t =
      if p.can_move t then
        Except.ok { kind := p.kind, color := p.color, position := t,
                    has_moved :=
                      if p.kind = PieceKind.pawn ∨ p.kind = PieceKind.king ∨
                          p.kind = PieceKind.rook
                      then true else p.has_moved }
      else Except.error ChessErr.invalidMoveException := by
  obtain ⟨k, c, pos, hm⟩ := p
  cases k <;> simp [Piece.move]

/-- C5: when can_move accepts the target, move returns the piece with its
stored position set to the target, kind and color unchanged, and has_moved
set to true for Pawn, King and Rook (unchanged for the other kinds); when
can_move rejects it, move raises InvalidMoveException, and the piece value is
unchanged since the embedding is pure. -/
theorem piece_move_spec (p : Piece) (t : Int × Int) :
    (p.can_move t = true →
      ∃ q : Piece, p.move t = Except.ok q ∧ q.position = t ∧
        q.kind = p.kind ∧ q.color = p.color ∧
        ((p.kind = PieceKind.pawn ∨ p.kind = PieceKind.king ∨
            p.kind = PieceKind.rook) → q.has_moved = true) ∧
        (¬(p.kind = PieceKind.pawn ∨ p.kind = PieceKind.king ∨
            p.kind = PieceKind.rook) → q.has_moved = p.has_moved)) ∧
    (p.can_move t = false →
      p.move t = Except.error ChessErr.invalidMoveException) := by
  constructor
  · intro h
    refine ⟨{ kind := p.kind, color := p.color, position := t,
              has_moved :=
                if p.kind = PieceKind.pawn ∨ p.kind = PieceKind.king ∨
                    p.kind = PieceKind.rook
                then true else p.has_moved }, ?_, rfl, rfl, rfl, ?_, ?_⟩
    · rw [move_eq]; simp [h]
    · intro hk; exact if_pos hk
    · intro hn; exact if_neg hn
  · intro h
    rw [move_eq]
    simp [h]

/-- Witness for C5: the white Pawn at (6, 0) moves to (5, 0) and gains the
has_moved flag, while the geometry-rejected target (0, 0) raises. -/
theorem piece_move_spec_witness :
    (∃ q : Piece, white_pawn_60.move (5, 0) = Except.ok q ∧
        q.position = (5, 0) ∧ q.kind = white_pawn_60.kind ∧
        q.color = white_pawn_60.color ∧
        ((white_pawn_60.kind = PieceKind.pawn ∨
            white_pawn_60.kind = PieceKind.king ∨
            white_pawn_60.kind = PieceKind.rook) → q.has_moved = true) ∧
        (¬(white_pawn_60.kind = PieceKind.pawn ∨
            white_pawn_60.kind = PieceKind.king ∨
            white_pawn_60.kind = PieceKind.rook) →
          q.has_moved = white_pawn_60.has_moved)) ∧
      white_pawn_60.move (0, 0) = Except.error ChessErr.invalidMoveException :=
  ⟨(piece_move_spec white_pawn_60 (5, 0)).1 (by decide),
   (piece_move_spec white_pawn_60 (0, 0)).2 (by decide)⟩

/-- C8: the Queen geometry is exactly the union of the Rook and the Bishop
geometries, from every square, to every target, for either color and either
flag value. -/
theorem queen_geometry_union :
    ∀ (pos t : Int × Int) (c : Color) (hm : Bool),
      Piece.can_move
          { kind := PieceKind.queen, color := c, position := pos,
            has_moved := hm } t
        = (Piece.can_move
              { kind := PieceKind.rook, color := c, position := pos,
                has_moved := hm } t
            || Piece.can_move
                { kind := PieceKind.bishop, color := c, position := pos,
                  has_moved := hm } t) := by
  intro pos t c hm
  show Queen.can_move
        { kind := PieceKind.queen, color := c, position := pos,
          has_moved := hm } t
      = (Rook.can_move
            { kind := PieceKind.rook, color := c, position := pos,
              has_moved := hm } t
          || Bishop.can_move
              { kind := PieceKind.bishop, color := c, position := pos,
                has_moved := hm } t)
  simp only [Queen.can_move, Rook.can_move, Bishop.can_move]
  rw [Bool.eq_iff_iff]
  simp only [Bool.or_eq_true, decide_eq_true_eq]
  tauto

/-- Helper: no kind of piece can move to its own stored square. -/
theorem can_move_self (p : Piece) : p.can_move p.position = false := by
  obtain ⟨k, c, pos, hm⟩ := p
  cases k <;> cases c <;>
    simp [Piece.can_move, Pawn.can_move, King.can_move, Queen.can_move,
      Rook.can_move, Knight.can_move, Bishop.can_move, sub_self]

/-- Helper: every square that get_possible_positions returns passed
can_move. -/
theorem get_possible_positions_can_move {p : Piece} {n : Nat}
    {l : List (Int × Int)} (h : p.get_possible_positions n = some l) :
    ∀ x ∈ l, p.can_move x = true := by
  simp only [Piece.get_possible_positions] at h
  split at h
  · injection h with h
    subst h
    intro x hx
    exact (List.mem_filter.mp hx).2
  · exact absurd h (by simp)

/-- C9: no piece, of any kind, at any square, can move to its own current
square, and hence the current square never occurs in the list
get_possible_positions returns. -/
theorem own_square_not_a_target (p : Piece) :
    p.can_move p.position = false ∧
      ∀ (n : Nat) (l : List (Int × Int)),
        p.get_possible_positions n = some l → p.position ∉ l := by
  refine ⟨can_move_self p, ?_⟩
  intro n l h hmem
  have hc := get_possible_positions_can_move h p.position hmem
  rw [can_move_self p] at hc
  exact Bool.false_ne_true hc

/-- Witness for C9: the Knight at (0, 0) yields the move list [(2, 1)], which
avoids its own square. -/
theorem own_square_not_a_target_witness :
    knight_00.position ∉ [((2 : Int), (1 : Int))] :=
  (own_square_not_a_target knight_00).2 8 [(2, 1)] (by decide)

/-- C10: when can_move rejects every square of the board,
get_possible_positions returns None; and it never returns an empty list. -/
theorem no_reachable_square_gives_none (p : Piece) (n : Nat) :
    ((∀ x ∈ board_squares n, p.can_move x = false) →
        p.get_possible_positions n = none) ∧
      p.get_possible_positions n ≠ some [] := by
  constructor
  · intro h
    have hfil :
        ((board_squares n).filter fun position => p.can_move position)
          = [] := by
      refine List.filter_eq_nil_iff.mpr ?_
      intro a ha
      simp [h a ha]
    simp [Piece.get_possible_positions, hfil]
  · intro hcontra
    simp only [Piece.get_possible_positions] at hcontra
    split at hcontra
    · injection hcontra with he
      rename_i hlen
      rw [he] at hlen
      simp at hlen
    · exact absurd hcontra (by simp)

/-- Witness for C10: the white Pawn on row 0 has both forward squares off the
board, and get_possible_positions returns None. -/
theorem no_reachable_square_gives_none_witness :
    white_pawn_00.get_possible_positions 8 = none :=
  (no_reachable_square_gives_none white_pawn_00 8).1 (by decide)

/-- C7: on Scenario B, get_state raises AttributeError at the empty square
(4, 4) where the claim expects true; on the occupied squares the code does
match the claim: false at the own King, true at the enemy Queen. -/
theorem get_state_on_empty_square :
    scenario_b.get_state Color.white (4, 4)
        = Except.error ChessErr.attributeError ∧
      scenario_b.get_state Color.white (0, 0) = Except.ok false ∧
      scenario_b.get_state Color.white (0, 7) = Except.ok true := by
  refine ⟨rfl, rfl, rfl⟩

end Chess
